import Mathlib

/-!
Verification of the `pbrust` 3-vector library (`src/vector3.rs`).

The Rust type `Vector3<T: Num>` is a plain struct of three components.
We embed it as `Vector3 α` and translate each method of the source.
The derived operator impls (`derive_more`'s `Add`, `Sub`, `Mul`, `Div`,
`Neg`, and their `*Assign` forms) act componentwise for the add-like
operators and scalar-wise for the mul-like ones; we spell out the code
they generate.  Rust's `ToPrimitive::to_f64 : T -> Option<f64>` is kept
abstract as a class `ToF64 α F` (with `F` the idealised float carrier),
and `.expect`, which panics on `None`, is modelled as `Except String`.
-/

namespace Pbrust

/-- The `Vector3<T>` struct of `src/vector3.rs`: three public fields. -/
structure Vector3 (α : Type) where
  x : α
  y : α
  z : α
deriving DecidableEq, Repr

namespace Vector3

variable {α : Type}

/-- `Vector3::new(x, y, z)`. -/
def new (x y z : α) : Vector3 α :=
  { x := x, y := y, z := z }

/-- Code generated by `#[derive(Add)]`: componentwise addition. -/
def add [Add α] (u v : Vector3 α) : Vector3 α :=
  { x := u.x + v.x, y := u.y + v.y, z := u.z + v.z }

/-- Code generated by `#[derive(Sub)]`: componentwise subtraction. -/
def sub [Sub α] (u v : Vector3 α) : Vector3 α :=
  { x := u.x - v.x, y := u.y - v.y, z := u.z - v.z }

/-- Code generated by `#[derive(Neg)]`: componentwise negation. -/
def neg [Neg α] (v : Vector3 α) : Vector3 α :=
  { x := -v.x, y := -v.y, z := -v.z }

/-- Code generated by `#[derive(Mul)]` on a multi-field struct:
each field multiplied by the scalar right-hand side. -/
def mul [Mul α] (v : Vector3 α) (s : α) : Vector3 α :=
  { x := v.x * s, y := v.y * s, z := v.z * s }

/-- Code generated by `#[derive(Div)]` on a multi-field struct:
each field divided by the scalar right-hand side. -/
def div [Div α] (v : Vector3 α) (s : α) : Vector3 α :=
  { x := v.x / s, y := v.y / s, z := v.z / s }

/-- Code generated by `#[derive(AddAssign)]`: the receiver's final state
after `u += v`, each field updated by `+=`. -/
def addAssign [Add α] (u v : Vector3 α) : Vector3 α :=
  { x := u.x + v.x, y := u.y + v.y, z := u.z + v.z }

/-- Code generated by `#[derive(SubAssign)]`: the receiver's final state
after `u -= v`. -/
def subAssign [Sub α] (u v : Vector3 α) : Vector3 α :=
  { x := u.x - v.x, y := u.y - v.y, z := u.z - v.z }

/-- Code generated by `#[derive(MulAssign)]`: the receiver's final state
after `v *= s`. -/
def mulAssign [Mul α] (v : Vector3 α) (s : α) : Vector3 α :=
  { x := v.x * s, y := v.y * s, z := v.z * s }

/-- Code generated by `#[derive(DivAssign)]`: the receiver's final state
after `v /= s`. -/
def divAssign [Div α] (v : Vector3 α) (s : α) : Vector3 α :=
  { x := v.x / s, y := v.y / s, z := v.z / s }

/-- `Vector3::dot`: `self.x * other.x + self.y * other.y + self.z * other.z`.
Both `+` here associate to the left, exactly as in the Rust expression. -/
def dot [Mul α] [Add α] (self other : Vector3 α) : α :=
  self.x * other.x + self.y * other.y + self.z * other.z

/-- `Vector3::cross`: the right-handed cross product, field by field as in
the source. -/
def cross [Mul α] [Sub α] (self other : Vector3 α) : Vector3 α :=
  { x := self.y * other.z - self.z * other.y
  , y := self.z * other.x - self.x * other.z
  , z := self.x * other.y - self.y * other.x }

end Vector3

/-- Rust's `ToPrimitive::to_f64`: a partial conversion from the element
type `α` into the float carrier `F` (the idealisation of `f64`). -/
class ToF64 (α : Type) (F : Type) where
  to_f64 : α → Option F

/-- Rust's `Option::expect(msg)`: the value on `Some`, a panic carrying
`msg` on `None`, modelled as `Except String`. -/
def optionExpect {β : Type} (o : Option β) (msg : String) : Except String β :=
  match o with
  | some b => .ok b
  | none => .error msg

namespace Vector3

variable {α : Type}

/-- `Vector3::length_squared`: computes `self.x * self.x + self.y * self.y
+ self.z * self.z` in the element type, then `to_f64().expect(...)`. -/
def length_squared (F : Type) [Mul α] [Add α] [ToF64 α F] (self : Vector3 α) :
    Except String F :=
  optionExpect
    (ToF64.to_f64 (self.x * self.x + self.y * self.y + self.z * self.z))
    "Failed to convert to f64!"

/-- `Vector3::length`: `self.length_squared().sqrt()`, a panic in
`length_squared` propagating. `f64::sqrt` is idealised as `Real.sqrt`. -/
noncomputable def length [Mul α] [Add α] [ToF64 α ℝ] (self : Vector3 α) :
    Except String ℝ :=
  (self.length_squared ℝ).map Real.sqrt

/-- `Vector3::abs` (requires `T: Signed`): componentwise absolute value. -/
def abs [LinearOrderedRing α] (self : Vector3 α) : Vector3 α :=
  { x := |self.x|, y := |self.y|, z := |self.z| }

/-- `Vector3::abs_dot`: `abs(self.dot(other))`. -/
def abs_dot [LinearOrderedRing α] (self other : Vector3 α) : α :=
  |self.dot other|

end Vector3

/-- Conversion of a signed 64-bit integer element into the idealised
float carrier `ℚ`: exact, always succeeding. -/
instance intToF64Q : ToF64 ℤ ℚ :=
  ⟨fun n => some (n : ℚ)⟩

/-- Conversion of a signed 64-bit integer element into the idealised
float carrier `ℝ`: exact, always succeeding. -/
instance intToF64R : ToF64 ℤ ℝ :=
  ⟨fun n => some (n : ℝ)⟩

/-! ## Helper lemmas -/

/-- `optionExpect` returns `.ok b` exactly when the option was `some b`. -/
theorem optionExpect_eq_ok {β : Type} (o : Option β) (msg : String) (b : β) :
    optionExpect o msg = .ok b ↔ o = some b := by
  cases o <;> simp [optionExpect]

/-- `optionExpect` panics exactly when the option was `none`. -/
theorem optionExpect_eq_error {β : Type} (o : Option β) (msg m : String) :
    optionExpect o msg = .error m ↔ o = none ∧ m = msg := by
  cases o <;> simp [optionExpect]
  exact eq_comm

/-! ## Claim theorems -/

/-- C1: for every pair of vectors `u`, `v` over a ring element type,
`u.dot(v)` is `u.x*v.x + u.y*v.y + u.z*v.z` summed left-to-right, i.e.
`(u.x*v.x + u.y*v.y) + u.z*v.z`, so the result is deterministic even for
non-associative element types (the statement assumes no algebraic laws
of `α` at all). -/
theorem dot_left_to_right {α : Type} [Mul α] [Add α] (u v : Vector3 α) :
    u.dot v = (u.x * v.x + u.y * v.y) + u.z * v.z :=
  rfl

/-- C2: `u.cross(v)` has components, in order,
`x = u.y*v.z - u.z*v.y`, `y = u.z*v.x - u.x*v.z`, `z = u.x*v.y - u.y*v.x`
(right-handed convention). -/
theorem cross_components {α : Type} [Mul α] [Sub α] (u v : Vector3 α) :
    u.cross v = Vector3.new (u.y * v.z - u.z * v.y) (u.z * v.x - u.x * v.z)
      (u.x * v.y - u.y * v.x) :=
  rfl

/-- C3: `length_squared` computes `v.x*v.x + v.y*v.y + v.z*v.z` in the
element type and then converts that element to the float carrier, and
whenever it returns a value that value is the float conversion of
`v.dot(v)`. -/
theorem length_squared_eq_conv_dot {α F : Type} [Mul α] [Add α] [ToF64 α F]
    (v : Vector3 α) :
    v.length_squared F =
      optionExpect (ToF64.to_f64 (v.x * v.x + v.y * v.y + v.z * v.z))
        "Failed to convert to f64!"
    ∧ ∀ q : F, v.length_squared F = .ok q → ToF64.to_f64 (v.dot v) = some q := by
  refine ⟨rfl, fun q h => ?_⟩
  show ToF64.to_f64 (v.x * v.x + v.y * v.y + v.z * v.z) = some q
  exact (optionExpect_eq_ok _ _ _).mp h

/-- C3 witness: at `v = (1, -2, -3)` over `ℤ` (float carrier `ℚ`),
`to_f64 (v.dot v) = some 14`. -/
theorem length_squared_eq_conv_dot_witness :
    ToF64.to_f64 ((Vector3.new (1 : ℤ) (-2) (-3)).dot (Vector3.new 1 (-2) (-3)))
      = some (14 : ℚ) :=
  (length_squared_eq_conv_dot (Vector3.new 1 (-2) (-3))).2 14 rfl

/-- C4: `length_squared` fails — with the panic message of the source —
exactly when the intermediate squared-sum computed in the element type
cannot be converted to the float carrier, it returns no value in that
case, and when the conversion succeeds the error branch is unreachable:
the converted value is returned. -/
theorem length_squared_error_iff {α F : Type} [Mul α] [Add α] [ToF64 α F]
    (v : Vector3 α) :
    (v.length_squared F = .error "Failed to convert to f64!" ↔
      ToF64.to_f64 (v.x * v.x + v.y * v.y + v.z * v.z) = (none : Option F))
    ∧ (∀ q : F, v.length_squared F = .error "Failed to convert to f64!" →
        v.length_squared F ≠ .ok q)
    ∧ (∀ q : F, ToF64.to_f64 (v.x * v.x + v.y * v.y + v.z * v.z) = some q →
        v.length_squared F = .ok q) := by
  refine ⟨?_, ?_, ?_⟩
  · rw [show v.length_squared F =
      optionExpect (ToF64.to_f64 (v.x * v.x + v.y * v.y + v.z * v.z))
        "Failed to convert to f64!" from rfl]
    rw [optionExpect_eq_error]
    simp
  · intro q herr hok
    rw [herr] at hok
    exact Except.noConfusion hok
  · intro q hq
    show optionExpect (ToF64.to_f64 (v.x * v.x + v.y * v.y + v.z * v.z)) _ = _
    rw [hq]
    rfl

/-- C4 witness: at `v = (1, -2, -3)` over `ℤ` (float carrier `ℚ`) the
conversion succeeds, so `length_squared` returns `14`. -/
theorem length_squared_error_iff_witness :
    (Vector3.new (1 : ℤ) (-2) (-3)).length_squared ℚ = .ok 14 :=
  (length_squared_error_iff (Vector3.new 1 (-2) (-3))).2.2 14 (by decide)

/-- C5: whenever `length_squared` is defined (returns `q`), `length`
returns `sqrt q`, which is non-negative. -/
theorem length_eq_sqrt {α : Type} [Mul α] [Add α] [ToF64 α ℝ]
    (v : Vector3 α) (q : ℝ) (h : v.length_squared ℝ = .ok q) :
    v.length = .ok (Real.sqrt q) ∧ 0 ≤ Real.sqrt q := by
  unfold Vector3.length
  rw [h]
  exact ⟨rfl, Real.sqrt_nonneg q⟩

/-- C5 witness: at `v = (1, -2, -3)` over `ℤ`, `length_squared = 14` and
`length = sqrt 14 ≥ 0`. -/
theorem length_eq_sqrt_witness :
    (Vector3.new (1 : ℤ) (-2) (-3)).length = .ok (Real.sqrt 14)
    ∧ 0 ≤ Real.sqrt 14 :=
  length_eq_sqrt (Vector3.new 1 (-2) (-3)) 14 (by
    show optionExpect (some ((1 * 1 + -2 * -2 + -3 * -3 : ℤ) : ℝ)) _ = _
    norm_num [optionExpect])

/-- C6: each compound assignment leaves the receiver in exactly the state
the pure operator computes: `u += v` ends at `u + v`, `u -= v` at `u - v`,
`u *= s` at `u * s`, `u /= s` at `u / s`. -/
theorem compound_assign_consistent {α : Type} [Add α] [Sub α] [Mul α] [Div α]
    (u v : Vector3 α) (s : α) :
    u.addAssign v = u.add v ∧ u.subAssign v = u.sub v
    ∧ u.mulAssign s = u.mul s ∧ u.divAssign s = u.div s :=
  ⟨rfl, rfl, rfl, rfl⟩

/-- C7: `v * s` is `(v.x*s, v.y*s, v.z*s)` and `v / s` is
`(v.x/s, v.y/s, v.z/s)`; at `s = 0` the division is still the bare
componentwise `/` of the element type, with no checking by the vector
layer. -/
theorem scalar_mul_div_componentwise {α : Type} [Mul α] [Div α] [Zero α]
    (v : Vector3 α) (s : α) :
    v.mul s = Vector3.new (v.x * s) (v.y * s) (v.z * s)
    ∧ v.div s = Vector3.new (v.x / s) (v.y / s) (v.z / s)
    ∧ v.div 0 = Vector3.new (v.x / 0) (v.y / 0) (v.z / 0) :=
  ⟨rfl, rfl, rfl⟩

/-- C8: over a commutative ring, the cross product is orthogonal to both
operands under the dot product. -/
theorem cross_dot_orthogonal {α : Type} [CommRing α] (u v : Vector3 α) :
    (u.cross v).dot u = 0 ∧ (u.cross v).dot v = 0 := by
  constructor <;> · simp only [Vector3.cross, Vector3.dot]; ring

/-- C9: `u.abs_dot(v)` is the absolute value of `u.dot(v)`, and for a
commutative element type it is symmetric in its arguments. -/
theorem abs_dot_spec {α : Type} [LinearOrderedCommRing α] (u v : Vector3 α) :
    u.abs_dot v = |u.dot v| ∧ u.abs_dot v = v.abs_dot u := by
  refine ⟨rfl, ?_⟩
  unfold Vector3.abs_dot
  congr 1
  simp only [Vector3.dot]
  ring

/-- C10: `abs` is idempotent: every component of `v.abs()` is already
non-negative, so `v.abs().abs() = v.abs()`. -/
theorem abs_idempotent {α : Type} [LinearOrderedRing α] (v : Vector3 α) :
    v.abs.abs = v.abs := by
  simp [Vector3.abs, abs_abs]

end Pbrust
